import Mathlib

/-!
Shallow embedding of `src/main.rs` of the rsync-csv watch-and-forward agent.

The program watches a directory for CSV file modifications, matches each
file's first line against a map of header templates, transfers matched files
to a remote host, deletes the local copy on success, and appends audit
records to a per-directory `upload.log`.

The filesystem is modelled as a partial map from paths to string contents.
Every effectful function additionally returns the ordered list of observable
events it performed (routing invocation, transfer invocation, deletion
attempt, audit-record append), so that temporal claims about event order can
be stated.  The external transfer mechanism (the `rsync` child process) is
modelled by an oracle `TransferOutcome` input.
-/

namespace RsyncCsv

deriving instance DecidableEq for Except

/-- A filesystem path, split into the parent directory and the basename
(`file_name` in Rust).  The Rust code only ever uses `parent()` and
`file_name()` of a path, and the spec calls a parentless path "a degenerate
case expected never to occur", so paths are modelled with both components
present. -/
structure FsPath where
  dir : String
  base : String
deriving DecidableEq, Repr

/-- The filesystem: a partial map from paths to file contents. -/
def Fs : Type := FsPath → Option String

/-- Overwrite (or create) the file at `p` with content `c`. -/
def Fs.write (fs : Fs) (p : FsPath) (c : String) : Fs :=
  fun q => if q = p then some c else fs q

/-- Remove the file at `p` (no-op when absent, matching `delete_src_file`
which logs and swallows a deletion error). -/
def Fs.remove (fs : Fs) (p : FsPath) : Fs :=
  fun q => if q = p then none else fs q

/-- Open `p` in append-and-create mode and write `s` at the end:
the existing content (empty when the file does not exist) is preserved
as a prefix.  This is `OpenOptions::new().append(true).create(true)`
followed by `write`. -/
def Fs.append (fs : Fs) (p : FsPath) (s : String) : Fs :=
  fs.write p (((fs p).getD ("")) ++ s)

/-- Observable events of one pipeline run, in execution order. -/
inductive Ev where
  /-- Marks that `match_col_headers` was invoked on this path. -/
  | route (p : FsPath)
  /-- the rsync command for this source file and table name was invoked. -/
  | transfer (p : FsPath) (table_name : String)
  /-- Marks that `fs::remove_file` was attempted on this path. -/
  | deleteAttempt (p : FsPath)
  /-- an audit record with this message was appended to `dir/upload.log`. -/
  | audit (dir : String) (msg : String)
deriving DecidableEq, Repr

/-- Whether an event is an audit-record append. -/
def Ev.isAudit : Ev → Bool
  | .audit _ _ => true
  | _ => false

/-- Whether an event is a deletion attempt. -/
def Ev.isDeleteAttempt : Ev → Bool
  | .deleteAttempt _ => true
  | _ => false

/-- Embeds `notify::event::DataChange`. -/
inductive DataChange where
  | any | size | content | other
deriving DecidableEq, Repr

/-- Embeds `notify::event::ModifyKind` (metadata/name details are irrelevant to the
watch loop, which only ever matches `Data`). -/
inductive ModifyKind where
  | any
  | data (c : DataChange)
  | metadata
  | name
  | other
deriving DecidableEq, Repr

/-- Embeds `notify::EventKind`. -/
inductive EventKind where
  | any | access | create
  | modify (m : ModifyKind)
  | remove | other
deriving DecidableEq, Repr

/-- A filesystem notification as consumed by the watch loop: its kind and
its (first) path. -/
structure NotifyEvent where
  kind : EventKind
  path : FsPath
deriving DecidableEq, Repr

/-- Outcome of invoking the rsync child process: the command ran and exited
successfully, ran and exited with failure (carrying its stderr text), or
could not be spawned at all. -/
inductive TransferOutcome where
  | success
  | exitFailure (stderr : String)
  | spawnError (e : String)
deriving DecidableEq, Repr

/-- A local wall-clock timestamp, as read from `chrono::Local::now()`. -/
structure LocalTime where
  year : Nat
  month : Nat
  day : Nat
  hour : Nat
  minute : Nat
  second : Nat
deriving DecidableEq, Repr

/-- Zero-pad a number to two digits, as chrono `%m`, `%d`, `%H`, `%M`, `%S`. -/
def pad2 (n : Nat) : String :=
  if n < 10 then ("0") ++ toString n else toString n

/-- Zero-pad a number to four digits, as chrono `%Y` for common-era years. -/
def pad4 (n : Nat) : String :=
  if n < 10 then ("000") ++ toString n
  else if n < 100 then ("00") ++ toString n
  else if n < 1000 then ("0") ++ toString n
  else toString n

/-- Embeds `chrono::Local::now().format("%Y-%m-%d %H:%M:%S")`. -/
def format_local_time (t : LocalTime) : String :=
  pad4 t.year ++ "-" ++ pad2 t.month ++ "-" ++ pad2 t.day ++ " " ++
    pad2 t.hour ++ ":" ++ pad2 t.minute ++ ":" ++ pad2 t.second

/-- The audit log file of a directory: `Path::new(log_dir).join("upload.log")`. -/
def logPath (dir : String) : FsPath := ⟨dir, "upload.log"⟩

/-- Embeds `log_upload_status(log_dir, log_msg)`: append one line
`"{log_time} - {log_msg}\n"` to `log_dir/upload.log`, creating the file when
absent and never truncating it. -/
def log_upload_status (t : LocalTime) (log_dir : String) (log_msg : String)
    (fs : Fs) : Fs × List Ev :=
  (fs.append (logPath log_dir) (format_local_time t ++ " - " ++ log_msg ++ "\n"),
   [.audit log_dir log_msg])

/-- Embeds `delete_src_file(src_file)`: attempt `fs::remove_file`; a failure is
logged to diagnostics and swallowed. -/
def delete_src_file (src_file : FsPath) (fs : Fs) : Fs × List Ev :=
  (fs.remove src_file, [.deleteAttempt src_file])

/-- Characters of a line before the first `'\n'`. -/
def beforeNewline : List Char → List Char
  | [] => []
  | c :: cs => if c = '\n' then [] else c :: beforeNewline cs

/-- Drop one trailing `'\r'`, as `BufRead::lines` does on a CRLF line end. -/
def dropTrailingCr (l : List Char) : List Char :=
  match l.reverse with
  | '\r' :: rest => rest.reverse
  | _ => l

/-- First line of a file as produced by `BufReader::lines().next()`:
the text before the first `'\n'`, with a trailing `'\r'` removed when the
line was newline-terminated; the empty string for an empty file
(`unwrap_or_else(|| Ok(String::new()))`). -/
def firstLine (content : String) : String :=
  let pre := beforeNewline content.data
  if content.data.contains '\n' then String.mk (dropTrailingCr pre)
  else String.mk pre

/-- Embeds `str::trim_end_matches(",")`: remove every trailing comma. -/
def stripAllTrailingCommas (s : String) : String :=
  String.mk ((s.data.reverse.dropWhile (fun c => c = ',')).reverse)

/-- Modelled from the spec's words for comparison with the source:
"strips a single trailing comma if present".  This is NOT what
`trim_end_matches` does; it is the normalization the spec describes. -/
def specStripSingleTrailingComma (s : String) : String :=
  match s.data.reverse with
  | ',' :: rest => String.mk rest.reverse
  | _ => s

/-- Embeds `match_col_headers(csv_path, hashmap)`.  Returns `Ok(table_name)` on a
header match, `Ok("")` both when the path does not exist and when no template
matches (writing a failure audit record in the latter case only).  The
`HashMap` is modelled as an association list looked up with `List.lookup`. -/
def match_col_headers (t : LocalTime) (csv_path : FsPath)
    (hashmap : List (String × String)) (fs : Fs) :
    Except String String × Fs × List Ev :=
  match fs csv_path with
  | none => (.ok (""), fs, [.route csv_path])
  | some content =>
    let csv_headers := firstLine content
    match List.lookup (stripAllTrailingCommas csv_headers) hashmap with
    | some table_name => (.ok table_name, fs, [.route csv_path])
    | none =>
      let l := log_upload_status t csv_path.dir
        ("Upload failed! File: " ++ csv_path.base ++
          " Reason: No matching table headers found.") fs
      (.ok (""), l.1, .route csv_path :: l.2)

/-- Embeds `run_rsync(src_file, ..., table_name)` with the child process's result
supplied by the `outcome` oracle: on exit success, delete the source file and
then append a success audit record; on exit failure, append a failure audit
record carrying the stderr text and leave the file alone; on a spawn error,
only a diagnostic is logged. -/
def run_rsync (t : LocalTime) (outcome : TransferOutcome) (src_file : FsPath)
    (table_name : String) (fs : Fs) : Fs × List Ev :=
  match outcome with
  | .success =>
    let d := delete_src_file src_file fs
    let l := log_upload_status t src_file.dir
      ("Upload succeeded! File: " ++ src_file.base) d.1
    (l.1, .transfer src_file table_name :: (d.2 ++ l.2))
  | .exitFailure err_msg =>
    let l := log_upload_status t src_file.dir
      ("Upload failed! File: " ++ src_file.base ++ " Reason: " ++ err_msg) fs
    (l.1, .transfer src_file table_name :: l.2)
  | .spawnError _ => (fs, [.transfer src_file table_name])

/-- Embeds `Path::extension()` of a file name: the portion after the last `'.'`;
`none` when there is no `'.'` at all, or when the last `'.'` is the leading
character (a hidden file with no further dot). -/
def extension (base : String) : Option String :=
  let l := base.data
  let after := l.reverse.takeWhile (fun c => c ≠ '.')
  if after.length = l.length then none
  else if after.length = l.length - 1 then none
  else some (String.mk after.reverse)

/-- Embeds `Path::file_stem()` of a file name: the portion before the extension,
the whole name when there is none. -/
def file_stem (base : String) : String :=
  match extension base with
  | none => base
  | some ext => String.mk (base.data.take (base.data.length - ext.data.length - 1))

/-- Drop the list `p` from the front of `l` when `l` starts with `p`. -/
def dropMatching : List Char → List Char → Option (List Char)
  | [], l => some l
  | _ :: _, [] => none
  | p :: ps, c :: cs => if c = p then dropMatching ps cs else none

/-- Embeds `str::strip_suffix`: drop `suffix` from the end when present. -/
def stripSuffixOpt (s suffix : String) : Option String :=
  (dropMatching suffix.data.reverse s.data.reverse).map
    (fun r => String.mk r.reverse)

/-- The table name `load_headers` derives from a template file's name:
`file_stem` then `strip_suffix("_template")` (the code unwraps; `none` models
the panic on a name not ending in `_template`). -/
def templateTableName (base : String) : Option String :=
  stripSuffixOpt (file_stem base) "_template"

/-- ASCII whitespace, the fragment of `char::is_whitespace` relevant to this
program's template files. -/
def isWhitespaceChar (c : Char) : Bool :=
  c = ' ' ∨ c = '\t' ∨ c = '\n' ∨ c = '\r'

/-- Embeds `str::trim`: drop leading and trailing whitespace. -/
def rustTrim (s : String) : String :=
  String.mk
    (((s.data.dropWhile isWhitespaceChar).reverse.dropWhile isWhitespaceChar).reverse)

/-- One entry of the `load_headers` map from a template file's basename and
content: key = trimmed content, value = derived table name. -/
def load_headers_entry (base content : String) : Option (String × String) :=
  (templateTableName base).map (fun table_name => (rustTrim content, table_name))

/-- One iteration of the `watch_for_file_changes` loop on a received event.
Only `Modify(Data(Any))` events on paths with extension exactly `"csv"`
reach the router; a matched non-empty table name triggers `run_rsync`; a
router error would be audited by the loop itself. -/
def watch_step (t : LocalTime) (hashmap : List (String × String))
    (outcome : TransferOutcome) (e : NotifyEvent) (fs : Fs) : Fs × List Ev :=
  match e.kind with
  | .modify (.data .any) =>
    if extension e.path.base = some ("csv") then
      let r := match_col_headers t e.path hashmap fs
      match r.1 with
      | .ok table_name =>
        if table_name = "" then (r.2.1, r.2.2)
        else
          let rr := run_rsync t outcome e.path table_name r.2.1
          (rr.1, r.2.2 ++ rr.2)
      | .error err =>
        let l := log_upload_status t e.path.dir
          ("Upload failed! File: " ++ e.path.base ++ " Reason: " ++ err)
          r.2.1
        (l.1, r.2.2 ++ l.2)
    else (fs, [])
  | _ => (fs, [])

/-- Modelled from the spec's words, for comparison with the source's filter:
an event kind "representing a data modification to existing file content
(not metadata-only changes, not creation-without-content, not deletion)",
i.e. any `Modify(Data(_))` kind. -/
def isDataModification : EventKind → Bool
  | .modify (.data _) => true
  | _ => false


/-! Helper lemmas (shared across claims). -/

lemma dropWhile_comma_replicate_append (n : Nat) (l : List Char) :
    List.dropWhile (fun c => c = ',') (List.replicate n ',' ++ l) =
      List.dropWhile (fun c => c = ',') l := by
  induction n with
  | zero => simp
  | succ k ih => simp [List.replicate_succ, List.dropWhile, ih]

lemma stripAllTrailingCommas_append_commas (s : String) (n : Nat) :
    stripAllTrailingCommas (s ++ String.mk (List.replicate n ',')) =
      stripAllTrailingCommas s := by
  have hdata : (s ++ String.mk (List.replicate n ',')).data =
      s.data ++ List.replicate n ',' := rfl
  unfold stripAllTrailingCommas
  rw [hdata, List.reverse_append, List.reverse_replicate,
    dropWhile_comma_replicate_append]

lemma match_col_headers_first_ok (t : LocalTime) (p : FsPath)
    (m : List (String × String)) (fs : Fs) :
    ∃ s, (match_col_headers t p m fs).1 = .ok s := by
  unfold match_col_headers
  cases h : fs p with
  | none => exact ⟨"", rfl⟩
  | some content =>
    cases h2 : List.lookup (stripAllTrailingCommas (firstLine content)) m with
    | none => exact ⟨"", by simp [h2]⟩
    | some table_name => exact ⟨table_name, by simp [h2]⟩

lemma match_col_headers_trace_head (t : LocalTime) (p : FsPath)
    (m : List (String × String)) (fs : Fs) :
    ∃ rest, (match_col_headers t p m fs).2.2 = .route p :: rest := by
  unfold match_col_headers
  cases h : fs p with
  | none => exact ⟨[], rfl⟩
  | some content =>
    cases h2 : List.lookup (stripAllTrailingCommas (firstLine content)) m with
    | none =>
      exact ⟨[.audit p.dir ("Upload failed! File: " ++ p.base ++
        " Reason: No matching table headers found.")],
        by simp [h2, log_upload_status]⟩
    | some table_name => exact ⟨[], by simp [h2]⟩

/-! Theorems for the claims. -/

/-- C1 (amended): for every header string H and table name T registered in
the TemplateMap as (H, T), routing an existing file whose first line, after
trimming the trailing newline and stripping ALL trailing commas, equals H
returns Matched(T). -/
theorem C1_registered_header_routes_to_table (t : LocalTime) (p : FsPath)
    (m : List (String × String)) (fs : Fs) (content H T : String)
    (hf : fs p = some content)
    (hreg : List.lookup H m = some T)
    (hnorm : stripAllTrailingCommas (firstLine content) = H) :
    (match_col_headers t p m fs).1 = .ok T := by
  simp [match_col_headers, hf, hnorm, hreg]

/-- C1 witness: Scenario A of the spec — template
`("id,name,amount", "orders")`, file with first line `id,name,amount,`. -/
theorem C1_registered_header_routes_to_table_witness :
    (match_col_headers ⟨2024, 1, 2, 3, 4, 5⟩ ⟨"/watch", "orders_001.csv"⟩
      [("id,name,amount", "orders")]
      (fun q => if q = ⟨"/watch", "orders_001.csv"⟩
        then some ("id,name,amount,\n1,2,3\n") else none)).1 = .ok ("orders") :=
  C1_registered_header_routes_to_table _ _ _ _ ("id,name,amount,\n1,2,3\n")
    "id,name,amount" "orders" (by decide) (by decide) (by decide)

/-- C1 counterexample: the claim as stated (with the spec's single-comma
normalization) is false.  With the header `"a,"` registered for table `"t"`,
the file whose first line `"a,,"` normalizes to `"a,"` under single-comma
stripping is NOT routed to `"t"`: the code strips all trailing commas and
looks up `"a"` instead, so the router returns the unmatched outcome. -/
theorem C1_counterexample :
    specStripSingleTrailingComma (firstLine ("a,,\n1,2\n")) = "a," ∧
    List.lookup ("a,") [("a,", "t")] = some ("t") ∧
    (match_col_headers ⟨2024, 1, 2, 3, 4, 5⟩ ⟨"/w", "f.csv"⟩ [("a,", "t")]
      (fun q => if q = ⟨"/w", "f.csv"⟩ then some ("a,,\n1,2\n") else none)).1 =
      .ok ("") ∧
    (Except.ok ("") : Except String String) ≠ .ok ("t") := by decide

/-- C2 (amended): the router normalizes the header by reading exactly the
first line, trimming the trailing newline, and stripping ALL trailing commas
before looking the result up: for a first line consisting of `s` (itself not
comma-terminated) followed by `n` trailing commas, the lookup is performed on
`s`. -/
theorem C2_normalization_strips_all_trailing_commas (t : LocalTime)
    (p : FsPath) (m : List (String × String)) (fs : Fs) (content s : String)
    (n : Nat)
    (hf : fs p = some content)
    (hline : firstLine content = s ++ String.mk (List.replicate n ','))
    (hs : stripAllTrailingCommas s = s) :
    (match_col_headers t p m fs).1 = .ok ((List.lookup s m).getD ("")) := by
  have hkey : stripAllTrailingCommas (firstLine content) = s := by
    rw [hline, stripAllTrailingCommas_append_commas, hs]
  cases h2 : List.lookup s m with
  | none => simp [match_col_headers, hf, hkey, h2]
  | some table_name => simp [match_col_headers, hf, hkey, h2]

/-- C2 witness: the line `h,,,` is looked up as `h` and matches. -/
theorem C2_normalization_strips_all_trailing_commas_witness :
    (match_col_headers ⟨2024, 1, 2, 3, 4, 5⟩ ⟨"/w", "g.csv"⟩ [("h", "tbl")]
      (fun q => if q = ⟨"/w", "g.csv"⟩ then some ("h,,,\n") else none)).1 =
      .ok ((List.lookup ("h") [("h", "tbl")]).getD ("")) :=
  C2_normalization_strips_all_trailing_commas _ _ _ _ ("h,,,\n") ("h") 3
    (by decide) (by decide) (by decide)

/-- C2 counterexample: the claim that a first line ending in two or more
commas has exactly one comma removed is false: the code removes all of them,
so the line `b,,` is looked up as `b`, not `b,`, and misses a map that
registers `b,`. -/
theorem C2_counterexample :
    specStripSingleTrailingComma (firstLine ("b,,\n")) = "b," ∧
    stripAllTrailingCommas (firstLine ("b,,\n")) = "b" ∧
    List.lookup ("b,") [("b,", "tbl")] = some ("tbl") ∧
    (match_col_headers ⟨2024, 1, 2, 3, 4, 5⟩ ⟨"/w", "h.csv"⟩ [("b,", "tbl")]
      (fun q => if q = ⟨"/w", "h.csv"⟩ then some ("b,,\n") else none)).1 =
      .ok ("") := by decide

/-- C6: for every existing file whose normalized first line matches no
registered header, routing returns Unmatched (encoded `Ok("")`) and exactly
one audit record with message
`Upload failed! File: <basename> Reason: No matching table headers found.`
is appended to `upload.log` in the file's parent directory. -/
theorem C6_unmatched_file_audited (t : LocalTime) (p : FsPath)
    (m : List (String × String)) (fs : Fs) (content : String)
    (hf : fs p = some content)
    (hm : List.lookup (stripAllTrailingCommas (firstLine content)) m = none) :
    (match_col_headers t p m fs).1 = .ok ("") ∧
    (match_col_headers t p m fs).2.2.filter Ev.isAudit =
      [.audit p.dir ("Upload failed! File: " ++ p.base ++
        " Reason: No matching table headers found.")] ∧
    (match_col_headers t p m fs).2.1 (logPath p.dir) =
      some (((fs (logPath p.dir)).getD ("")) ++
        (format_local_time t ++ " - " ++
          ("Upload failed! File: " ++ p.base ++
            " Reason: No matching table headers found.") ++ "\n")) := by
  refine ⟨?_, ?_, ?_⟩ <;>
    simp [match_col_headers, hf, hm, log_upload_status, Fs.append, Fs.write,
      Ev.isAudit]

/-- C6 witness: Scenario B of the spec — `unknown.csv` with first line
`foo,bar` and no matching template. -/
theorem C6_unmatched_file_audited_witness :
    (match_col_headers ⟨2024, 1, 2, 3, 4, 5⟩ ⟨"/w", "unknown.csv"⟩
      [("id,name,amount", "orders")]
      (fun q => if q = ⟨"/w", "unknown.csv"⟩ then some ("foo,bar\n") else none)).1 =
      .ok ("") ∧
    (match_col_headers ⟨2024, 1, 2, 3, 4, 5⟩ ⟨"/w", "unknown.csv"⟩
      [("id,name,amount", "orders")]
      (fun q => if q = ⟨"/w", "unknown.csv"⟩ then some ("foo,bar\n") else none)).2.2.filter
        Ev.isAudit =
      [.audit ("/w") ("Upload failed! File: " ++ "unknown.csv" ++
        " Reason: No matching table headers found.")] :=
  ⟨(C6_unmatched_file_audited _ _ _ _ ("foo,bar\n") (by decide) (by decide)).1,
   (C6_unmatched_file_audited _ _ _ _ ("foo,bar\n") (by decide) (by decide)).2.1⟩

/-- C7: for every path that does not exist at the time the router is called,
routing returns Unmatched (`Ok("")`, not an I/O error), leaves the
filesystem unchanged, and writes no audit record. -/
theorem C7_nonexistent_path_no_record (t : LocalTime) (p : FsPath)
    (m : List (String × String)) (fs : Fs)
    (hf : fs p = none) :
    match_col_headers t p m fs = (.ok (""), fs, [.route p]) := by
  simp [match_col_headers, hf]

/-- C7 witness: routing a path on an empty filesystem. -/
theorem C7_nonexistent_path_no_record_witness :
    match_col_headers ⟨2024, 1, 2, 3, 4, 5⟩ ⟨"/w", "gone.csv"⟩
      [("id,name,amount", "orders")] (fun _ => none) =
      (.ok (""), fun _ => none, [.route ⟨"/w", "gone.csv"⟩]) :=
  C7_nonexistent_path_no_record _ _ _ _ rfl

/-- C3: for every dispatch whose transfer step succeeds, the local source
file no longer exists afterward, and exactly one audit record of the form
`Upload succeeded! File: <basename>` is appended to `upload.log` in the
file's parent directory.  (The source file is not itself `upload.log`,
which holds for every dispatched candidate since those end in `.csv`.) -/
theorem C3_success_deletes_and_audits_once (t : LocalTime) (p : FsPath)
    (tbl : String) (fs : Fs)
    (hbase : p.base ≠ "upload.log") :
    (run_rsync t .success p tbl fs).1 p = none ∧
    (run_rsync t .success p tbl fs).2.filter Ev.isAudit =
      [.audit p.dir ("Upload succeeded! File: " ++ p.base)] ∧
    (run_rsync t .success p tbl fs).1 (logPath p.dir) =
      some (((fs (logPath p.dir)).getD ("")) ++
        (format_local_time t ++ " - " ++
          ("Upload succeeded! File: " ++ p.base) ++ "\n")) := by
  have hne : p ≠ logPath p.dir := by
    intro h
    exact hbase (congrArg FsPath.base h)
  refine ⟨?_, rfl, ?_⟩
  · simp [run_rsync, delete_src_file, log_upload_status, Fs.append, Fs.write,
      Fs.remove, hne]
  · simp [run_rsync, delete_src_file, log_upload_status, Fs.append, Fs.write,
      Fs.remove, hne, Ne.symm hne]

/-- C3 witness. -/
theorem C3_success_deletes_and_audits_once_witness :
    (run_rsync ⟨2024, 1, 2, 3, 4, 5⟩ .success ⟨"/w", "orders_001.csv"⟩ ("orders")
      (fun q => if q = ⟨"/w", "orders_001.csv"⟩ then some ("id,name,amount\n")
        else none)).1 ⟨"/w", "orders_001.csv"⟩ = none :=
  (C3_success_deletes_and_audits_once ⟨2024, 1, 2, 3, 4, 5⟩
    ⟨"/w", "orders_001.csv"⟩ ("orders")
    (fun q => if q = ⟨"/w", "orders_001.csv"⟩ then some ("id,name,amount\n")
      else none) (by decide)).1

/-- C4 (amended): in every successful dispatch, the deletion of the local
source file is attempted BEFORE the success audit record is written — the
event order within the success branch is: attempt deletion, then record
success. -/
theorem C4_delete_attempt_precedes_success_record (t : LocalTime) (p : FsPath)
    (tbl : String) (fs : Fs) :
    (run_rsync t .success p tbl fs).2.findIdx Ev.isDeleteAttempt <
      (run_rsync t .success p tbl fs).2.findIdx Ev.isAudit :=
  Nat.one_lt_two

/-- C4 counterexample: the claim that the success record is written before
the deletion attempt is false.  In a concrete successful dispatch the event
trace is transfer, then deletion attempt, then audit record, so the first
audit record does not precede the first deletion attempt. -/
theorem C4_counterexample :
    (run_rsync ⟨2024, 1, 2, 3, 4, 5⟩ .success ⟨"/w", "f.csv"⟩ ("t")
      (fun q => if q = ⟨"/w", "f.csv"⟩ then some ("x\n") else none)).2 =
      [.transfer ⟨"/w", "f.csv"⟩ ("t"), .deleteAttempt ⟨"/w", "f.csv"⟩,
        .audit ("/w") ("Upload succeeded! File: f.csv")] ∧
    ¬ ((run_rsync ⟨2024, 1, 2, 3, 4, 5⟩ .success ⟨"/w", "f.csv"⟩ ("t")
      (fun q => if q = ⟨"/w", "f.csv"⟩ then some ("x\n") else none)).2.findIdx
        Ev.isAudit <
      (run_rsync ⟨2024, 1, 2, 3, 4, 5⟩ .success ⟨"/w", "f.csv"⟩ ("t")
      (fun q => if q = ⟨"/w", "f.csv"⟩ then some ("x\n") else none)).2.findIdx
        Ev.isDeleteAttempt) := by decide

/-- C5: for every dispatch whose transfer step fails (the rsync process exits
unsuccessfully), the local source file is left untouched, no deletion is
attempted, and exactly one audit record
`Upload failed! File: <basename> Reason: <stderr>` carrying the raw error
text is appended to `upload.log` in the parent directory. -/
theorem C5_failure_retains_file_and_audits_once (t : LocalTime) (p : FsPath)
    (tbl err : String) (fs : Fs)
    (hbase : p.base ≠ "upload.log") :
    (run_rsync t (.exitFailure err) p tbl fs).1 p = fs p ∧
    Ev.deleteAttempt p ∉ (run_rsync t (.exitFailure err) p tbl fs).2 ∧
    (run_rsync t (.exitFailure err) p tbl fs).2.filter Ev.isAudit =
      [.audit p.dir ("Upload failed! File: " ++ p.base ++ " Reason: " ++ err)] ∧
    (run_rsync t (.exitFailure err) p tbl fs).1 (logPath p.dir) =
      some (((fs (logPath p.dir)).getD ("")) ++
        (format_local_time t ++ " - " ++
          ("Upload failed! File: " ++ p.base ++ " Reason: " ++ err) ++ "\n")) := by
  have hne : p ≠ logPath p.dir := by
    intro h
    exact hbase (congrArg FsPath.base h)
  refine ⟨?_, ?_, rfl, ?_⟩
  · simp [run_rsync, log_upload_status, Fs.append, Fs.write, hne]
  · simp [run_rsync, log_upload_status]
  · simp [run_rsync, log_upload_status, Fs.append, Fs.write]

/-- C5 witness: Scenario C of the spec — a permission error from the
transfer mechanism. -/
theorem C5_failure_retains_file_and_audits_once_witness :
    (run_rsync ⟨2024, 1, 2, 3, 4, 5⟩ (.exitFailure ("rsync: permission denied"))
      ⟨"/w", "orders_001.csv"⟩ ("orders")
      (fun q => if q = ⟨"/w", "orders_001.csv"⟩ then some ("id,name,amount\n")
        else none)).1 ⟨"/w", "orders_001.csv"⟩ =
      (fun q => if q = (⟨"/w", "orders_001.csv"⟩ : FsPath)
        then some ("id,name,amount\n") else none) ⟨"/w", "orders_001.csv"⟩ :=
  (C5_failure_retains_file_and_audits_once ⟨2024, 1, 2, 3, 4, 5⟩
    ⟨"/w", "orders_001.csv"⟩ ("orders") ("rsync: permission denied")
    (fun q => if q = ⟨"/w", "orders_001.csv"⟩ then some ("id,name,amount\n")
      else none) (by decide)).1

/-- C9: every call `record(directory, message)` of the audit logger appends
to the file `upload.log` in that directory exactly one line
`<timestamp> - <message>` followed by a newline, where the timestamp is the
local time rendered as `%Y-%m-%d %H:%M:%S` (`YYYY-MM-DD HH:MM:SS`); the
existing content of the log is preserved as a prefix (append mode, never
truncated) and no other file changes. -/
theorem C9_record_appends_single_line (t : LocalTime) (dir msg : String)
    (fs : Fs) :
    (log_upload_status t dir msg fs).2 = [.audit dir msg] ∧
    (log_upload_status t dir msg fs).1 (logPath dir) =
      some (((fs (logPath dir)).getD ("")) ++
        (format_local_time t ++ " - " ++ msg ++ "\n")) ∧
    (∀ q, q ≠ logPath dir → (log_upload_status t dir msg fs).1 q = fs q) := by
  refine ⟨rfl, ?_, fun q hq => ?_⟩
  · simp [log_upload_status, Fs.append, Fs.write]
  · simp [log_upload_status, Fs.append, Fs.write, hq]

/-- C9 witness: an append to an existing log preserves the old record. -/
theorem C9_record_appends_single_line_witness :
    (log_upload_status ⟨2024, 1, 2, 3, 4, 5⟩ ("/w") ("Upload succeeded! File: a.csv")
      (fun q => if q = logPath ("/w") then some ("old record\n") else none)).1
      (logPath ("/w")) =
      some ((((fun q => if q = logPath ("/w") then some ("old record\n") else none) :
        Fs) (logPath ("/w"))).getD ("") ++
        (format_local_time ⟨2024, 1, 2, 3, 4, 5⟩ ++ " - " ++
          "Upload succeeded! File: a.csv" ++ "\n")) :=
  (C9_record_appends_single_line ⟨2024, 1, 2, 3, 4, 5⟩ ("/w")
    ("Upload succeeded! File: a.csv")
    (fun q => if q = logPath ("/w") then some ("old record\n") else none)).2.1

lemma watch_step_other_kind (t : LocalTime) (m : List (String × String))
    (o : TransferOutcome) (e : NotifyEvent) (fs : Fs)
    (hk : e.kind ≠ .modify (.data .any)) :
    watch_step t m o e fs = (fs, []) := by
  obtain ⟨k, p⟩ := e
  unfold watch_step
  cases k with
  | modify mk =>
    cases mk with
    | data c =>
      cases c with
      | any => exact absurd rfl hk
      | size => rfl
      | content => rfl
      | other => rfl
    | any => rfl
    | metadata => rfl
    | name => rfl
    | other => rfl
  | any => rfl
  | access => rfl
  | create => rfl
  | remove => rfl
  | other => rfl

lemma watch_step_not_csv (t : LocalTime) (m : List (String × String))
    (o : TransferOutcome) (p : FsPath) (fs : Fs)
    (hext : extension p.base ≠ some ("csv")) :
    watch_step t m o ⟨.modify (.data .any), p⟩ fs = (fs, []) := by
  unfold watch_step
  rw [if_neg hext]

lemma watch_step_csv_trace_head (t : LocalTime) (m : List (String × String))
    (o : TransferOutcome) (p : FsPath) (fs : Fs)
    (hext : extension p.base = some ("csv")) :
    ∃ rest, (watch_step t m o ⟨.modify (.data .any), p⟩ fs).2 =
      .route p :: rest := by
  obtain ⟨s, hs⟩ := match_col_headers_first_ok t p m fs
  obtain ⟨rest, hr⟩ := match_col_headers_trace_head t p m fs
  by_cases hse : s = ""
  · subst hse
    exact ⟨rest, by simp [watch_step, hext, hs, hr]⟩
  · exact ⟨rest ++ (run_rsync t o p s (match_col_headers t p m fs).2.1).2,
      by simp [watch_step, hext, hs, hr, hse]⟩

/-- C8 (amended): a received filesystem event triggers the routing/dispatch
pipeline if and only if its kind is exactly `Modify(Data(Any))` — the
unqualified data-change event — and its path's extension is exactly `csv`
(case-sensitive); every other event, including data modifications reported
with the finer `Content` or `Size` granularity and every modification of a
non-CSV path, is dropped and produces no routing, dispatch, deletion, or
audit event at all. -/
theorem C8_trigger_iff_data_any_and_csv (t : LocalTime)
    (m : List (String × String)) (o : TransferOutcome) (e : NotifyEvent)
    (fs : Fs) :
    (Ev.route e.path ∈ (watch_step t m o e fs).2 ↔
      (e.kind = .modify (.data .any) ∧ extension e.path.base = some ("csv"))) ∧
    (¬ (e.kind = .modify (.data .any) ∧ extension e.path.base = some ("csv")) →
      (watch_step t m o e fs).2 = []) := by
  obtain ⟨k, p⟩ := e
  dsimp only
  by_cases hk : k = .modify (.data .any)
  · subst hk
    by_cases hext : extension p.base = some ("csv")
    · refine ⟨⟨fun _ => ⟨rfl, hext⟩, fun _ => ?_⟩,
        fun hcon => absurd ⟨rfl, hext⟩ hcon⟩
      obtain ⟨rest, hr⟩ := watch_step_csv_trace_head t m o p fs hext
      rw [hr]
      exact List.mem_cons_self _ _
    · have h0 := watch_step_not_csv t m o p fs hext
      refine ⟨?_, fun _ => by rw [h0]⟩
      rw [h0]
      simp [hext]
  · have h0 := watch_step_other_kind t m o ⟨k, p⟩ fs hk
    refine ⟨?_, fun _ => by rw [h0]⟩
    rw [h0]
    simp [hk]

/-- C8 witness: a `Modify(Data(Any))` event on a `.txt` path triggers
nothing. -/
theorem C8_trigger_iff_data_any_and_csv_witness :
    (watch_step ⟨2024, 1, 2, 3, 4, 5⟩ [] .success
      ⟨.modify (.data .any), ⟨"/w", "note.txt"⟩⟩ (fun _ => none)).2 = [] :=
  (C8_trigger_iff_data_any_and_csv ⟨2024, 1, 2, 3, 4, 5⟩ [] .success
    ⟨.modify (.data .any), ⟨"/w", "note.txt"⟩⟩ (fun _ => none)).2 (by decide)

/-- C8 counterexample: the claim as stated is false.  The event kind
`Modify(Data(Content))` represents a data modification to existing file
content, and the path has extension `csv`, yet the pipeline is not
triggered: the watch loop matches only `Modify(Data(Any))` and drops this
event, producing no events at all. -/
theorem C8_counterexample :
    isDataModification (.modify (.data .content)) = true ∧
    extension ("f.csv") = some ("csv") ∧
    (watch_step ⟨2024, 1, 2, 3, 4, 5⟩ [("h", "t")] .success
      ⟨.modify (.data .content), ⟨"/w", "f.csv"⟩⟩
      (fun q => if q = ⟨"/w", "f.csv"⟩ then some ("h\n") else none)).2 = [] := by
  decide

/-- C10: `load_headers` registers a template file named exactly `_template`
under the empty table name; the router encodes a match on such a header the
same way as the Unmatched and nonexistent-path outcomes (the empty string),
and the watch loop then attempts no transfer: the pipeline run performs
routing only and leaves the filesystem unchanged. -/
theorem C10_empty_table_name_never_dispatches (t : LocalTime)
    (m : List (String × String)) (o : TransferOutcome) (p q : FsPath)
    (fs : Fs) (content : String)
    (hext : extension p.base = some ("csv"))
    (hf : fs p = some content)
    (hm : List.lookup (stripAllTrailingCommas (firstLine content)) m = some (""))
    (hq : fs q = none) :
    templateTableName ("_template") = some ("") ∧
    (match_col_headers t p m fs).1 = .ok ("") ∧
    (match_col_headers t q m fs).1 = .ok ("") ∧
    watch_step t m o ⟨.modify (.data .any), p⟩ fs = (fs, [.route p]) := by
  refine ⟨by decide, ?_, ?_, ?_⟩
  · simp [match_col_headers, hf, hm]
  · simp [match_col_headers, hq]
  · simp [watch_step, hext, match_col_headers, hf, hm]

/-- C10 witness: header `h` registered under the empty table name; a
matching CSV file is routed but no transfer happens and no state changes. -/
theorem C10_empty_table_name_never_dispatches_witness :
    watch_step ⟨2024, 1, 2, 3, 4, 5⟩ [("h", "")] .success
      ⟨.modify (.data .any), ⟨"/w", "x.csv"⟩⟩
      (fun r => if r = ⟨"/w", "x.csv"⟩ then some ("h\n1\n") else none) =
      ((fun r => if r = (⟨"/w", "x.csv"⟩ : FsPath) then some ("h\n1\n") else none),
        [.route ⟨"/w", "x.csv"⟩]) :=
  (C10_empty_table_name_never_dispatches ⟨2024, 1, 2, 3, 4, 5⟩ [("h", "")]
    .success ⟨"/w", "x.csv"⟩ ⟨"/w", "gone.csv"⟩
    (fun r => if r = ⟨"/w", "x.csv"⟩ then some ("h\n1\n") else none) "h\n1\n"
    (by decide) (by decide) (by decide) (by decide)).2.2.2

end RsyncCsv
